/-
Verification of the `FooterPhysics` simulation component
(src/src/components/FooterPhysics.tsx) against its specification.

The component orchestrates a Matter.js physics world: it classifies the
device by width, gates activation on viewport intersection, builds four
static boundary walls, populates one dynamic "board" body per texture URL,
and tears everything down on deactivation.

The embedding below is a shallow one: the straight-line bodies of the
component's effects, handlers and helpers are translated into pure Lean
functions over an explicit component state.  JavaScript is single-threaded
with run-to-completion event handlers, so each handler invocation is one
atomic state transition; observable states are the states between handler
invocations.  Numeric values are rationals (ℚ); `Math.random()` results are
passed in explicitly as rational parameters in [0, 1).
-/
import Mathlib

namespace FooterPhysics

/-- A plain rectangle body as produced by `Bodies.rectangle(x, y, w, h,
{ isStatic: true })` — used for the four boundary walls
(FooterPhysics.tsx lines 164–177).  `x`, `y` are the centre coordinates. -/
structure BRect where
  x : ℚ
  y : ℚ
  w : ℚ
  h : ℚ
  isStatic : Bool
deriving DecidableEq, Repr

/-- `createBoundaries(width, height)` from FooterPhysics.tsx lines 164–177:
four static rectangles — top, left, bottom, right — just outside the
container edges, each 20 units thick.  It is a Lean function, hence a pure
function of `(width, height)` with no side effects, exactly as the source
helper is (it only calls the `Bodies.rectangle` constructor). -/
def createBoundaries (width height : ℚ) : List BRect :=
  [ { x := width / 2, y := -10, w := width, h := 20, isStatic := true },
    { x := -10, y := height / 2, w := 20, h := height, isStatic := true },
    { x := width / 2, y := height + 10, w := width, h := 20, isStatic := true },
    { x := width + 10, y := height / 2, w := 20, h := height, isStatic := true } ]

/-- A board body as produced by the `Bodies.rectangle(x, y, 80, 285, ...)`
call in the board-population effect (FooterPhysics.tsx lines 217–240).
The source stores the rotation in radians as `angleDeg * Math.PI / 180`;
since π is transcendental we record the degree value `angleDeg`
(the factor in front of π/180), which carries the same information. -/
structure Board where
  x : ℚ
  y : ℚ
  w : ℚ
  h : ℚ
  chamferRadius : ℚ
  angleDeg : ℚ
  restitution : ℚ
  friction : ℚ
  texture : String
  isStatic : Bool
deriving DecidableEq, Repr

/-- One board from the `limitedBoardTextures.map` callback
(FooterPhysics.tsx lines 217–240): `rx`, `ry`, `rr` are the three
`Math.random()` samples drawn for this board (each in [0, 1)), `cw`/`ch`
the container dimensions, `texture` the texture URL.
`Bodies.rectangle` with no `isStatic` option creates a dynamic body. -/
def mkBoard (cw ch rx ry rr : ℚ) (texture : String) : Board :=
  { x := rx * cw
    y := ry * (ch / 2 - 100) + 50
    w := 80
    h := 285
    chamferRadius := 40
    angleDeg := rr * 100 - 50
    restitution := 8 / 10
    friction := 5 / 1000
    texture := texture
    isStatic := false }

/-- The whole `limitedBoardTextures.map((texture) => ...)` expression
(FooterPhysics.tsx lines 217–240): one board per texture, in list order.
`rnd` is the stream of `Math.random()` samples; board `i` consumes samples
`3*i`, `3*i+1`, `3*i+2` (x, y, rotation, in source order). -/
def mkBoards (cw ch : ℚ) (rnd : ℕ → ℚ) (ts : List String) : List Board :=
  ts.enum.map fun p => mkBoard cw ch (rnd (3 * p.1)) (rnd (3 * p.1 + 1)) (rnd (3 * p.1 + 2)) p.2

/-- `window.matchMedia("(max-width: 768px)").matches`
(FooterPhysics.tsx line 50): the device is Mobile iff the viewport width
is at most 768 logical pixels. -/
def isMobileWidth (width : ℚ) : Bool :=
  width ≤ 768

/-- `limitedBoardTextures` (FooterPhysics.tsx lines 63–65):
`isMobile ? boardTextureURLs.slice(0, 3) : boardTextureURLs`. -/
def limitedBoardTextures (isMobile : Bool) (boardTextureURLs : List String) : List String :=
  if isMobile then boardTextureURLs.take 3 else boardTextureURLs

/-- The default for the optional `boardTextureURLs` prop
(FooterPhysics.tsx line 29): `boardTextureURLs = []`. -/
def boardTextureURLsDefault : List String := []

/-- A body living in the Matter.js world: a boundary wall, a board, or the
mouse constraint (`MouseConstraint.create`, FooterPhysics.tsx lines 131–138,
stiffness 0.2, invisible render). -/
inductive Body where
  | wall (r : BRect)
  | board (b : Board)
  | mouse
deriving DecidableEq, Repr

/-- The Matter.js world: the collection of bodies currently added.
`engine.current.world` in the source. -/
structure World where
  bodies : List Body
deriving DecidableEq, Repr

/-- `World.add(world, bs)` — appends the given bodies. -/
def worldAdd (w : World) (bs : List Body) : World :=
  { bodies := w.bodies ++ bs }

/-- `World.remove(world, bs)` — removes every body in `bs` from the world. -/
def worldRemove (w : World) (bs : List Body) : World :=
  { bodies := w.bodies.filter (fun b => decide (b ∉ bs)) }

/-- Whether a body is a boundary wall. -/
def Body.isWall : Body → Bool
  | Body.wall _ => true
  | _ => false

/-- The walls currently present in a world. -/
def World.walls (w : World) : List Body :=
  w.bodies.filter Body.isWall

/-- The state of one `FooterPhysics` component instance, as held by its
refs, closures, DOM registrations and the Matter.js engine:

* `sceneMounted` — whether `scene.current` is non-null (the host div);
* `worldId` — identity of the engine/world aggregate.  `Engine.create()`
  is called exactly once, in the `useRef` initializer (line 36); a fresh
  identity would only arise from another `Engine.create()` call, which the
  component never makes;
* `world` — the bodies in `engine.current.world`;
* `boundaries` — the `boundaries` closure variable of the physics effect
  (line 121), reassigned by `onResize` (line 159);
* `resizeListeners` — the activation nonces of the `onResize` listeners
  currently registered with `window.addEventListener("resize", ...)`
  (line 141); each activation creates a fresh `onResize` closure, tagged
  here with the activation's nonce.  (The separate `handleResize`
  listener of the viewport classifier effect, lines 46–60, lives for the
  whole component lifetime and is not part of the physics teardown, so it
  is not tracked here.);
* `renderRunning` / `runnerRunning` — whether `Render.run` / `Runner.run`
  loops are live;
* `canvasAttached`, `canvasW`, `canvasH`, `pixelRatio` — the renderer
  canvas inserted by `Render.create` (lines 108–118);
* `textures` — the keys of the renderer texture cache (`render.textures`);
* `gravityY` — `engine.current.gravity.y` (Matter.js default is 1);
* `frames` — number of loop ticks performed so far (observable effect of
  the render/step loops). -/
structure SimState where
  sceneMounted : Bool
  worldId : ℕ
  world : World
  boundaries : List BRect
  resizeListeners : List ℕ
  renderRunning : Bool
  runnerRunning : Bool
  canvasAttached : Bool
  canvasW : ℚ
  canvasH : ℚ
  pixelRatio : ℚ
  textures : List String
  gravityY : ℚ
  frames : ℕ
deriving DecidableEq, Repr

/-- Component state right after mount: `useRef(Engine.create())` has run
once (world id 0, empty world, Matter default gravity 1), the host div is
in the document, no listeners, no loops, no canvas. -/
def mountState : SimState :=
  { sceneMounted := true
    worldId := 0
    world := { bodies := [] }
    boundaries := []
    resizeListeners := []
    renderRunning := false
    runnerRunning := false
    canvasAttached := false
    canvasW := 0
    canvasH := 0
    pixelRatio := 1
    textures := []
    gravityY := 1
    frames := 0 }

/-- One tick of the render/step loops: JavaScript schedules a tick only
while a loop is running (`Render.run` / `Runner.run` active and not yet
stopped); a tick advances the simulation (counted in `frames`). -/
def tick (s : SimState) : SimState :=
  if s.renderRunning || s.runnerRunning then { s with frames := s.frames + 1 } else s

/-- `engine.current.gravity.y = 0.5` (FooterPhysics.tsx line 102). -/
def setGravity (s : SimState) : SimState :=
  { s with gravityY := 1 / 2 }

/-- `Render.create({...})` (FooterPhysics.tsx lines 108–118): creates the
canvas inside the host div, sized to the container, at the device pixel
ratio. -/
def renderCreate (cw ch pr : ℚ) (s : SimState) : SimState :=
  { s with canvasAttached := true, canvasW := cw, canvasH := ch, pixelRatio := pr }

/-- Lines 121–122: `boundaries = createBoundaries(cw, ch);
World.add(engine.current.world, boundaries)`. -/
def addBoundariesStep (cw ch : ℚ) (s : SimState) : SimState :=
  { s with world := worldAdd s.world ((createBoundaries cw ch).map Body.wall)
           boundaries := createBoundaries cw ch }

/-- Lines 125–138: create the mouse constraint and add it to the world. -/
def addMouseStep (s : SimState) : SimState :=
  { s with world := worldAdd s.world [Body.mouse] }

/-- Line 141: `window.addEventListener("resize", onResize)` — registers
this activation's `onResize` closure, tagged with the activation nonce. -/
def addResizeListener (n : ℕ) (s : SimState) : SimState :=
  { s with resizeListeners := n :: s.resizeListeners }

/-- Lines 180–182: `Runner.run(runner, engine.current); Render.run(render)`
— both loops become live. -/
def startLoops (s : SimState) : SimState :=
  { s with runnerRunning := true, renderRunning := true }

/-- The body of the physics effect after its guards (FooterPhysics.tsx
lines 97–182), with an explicit `renderThrows` flag for the failure
analysis: if `Render.create` throws, the exception propagates out of the
effect (there is no try/catch anywhere in the component), and is returned
as `Except.error` carrying the state at the throw point.  On success the
final state is returned as `Except.ok`. -/
def activateE (renderThrows : Bool) (n : ℕ) (cw ch pr : ℚ) (s : SimState) :
    Except SimState SimState :=
  let s1 := setGravity s
  if renderThrows then Except.error s1
  else Except.ok
    (startLoops (addResizeListener n (addMouseStep (addBoundariesStep cw ch
      (renderCreate cw ch pr s1)))))

/-- The non-throwing activation path (`Idle → Running`). -/
def activate (n : ℕ) (cw ch pr : ℚ) (s : SimState) : SimState :=
  match activateE false n cw ch pr s with
  | Except.ok s2 => s2
  | Except.error s2 => s2

/-- The physics effect entry (FooterPhysics.tsx lines 87–95): it runs only
when the host div exists and is in view, and aborts (remaining Idle) when
the reduced-motion preference is set. -/
def physicsEffect (inV reduced renderThrows : Bool) (n : ℕ) (cw ch pr : ℚ)
    (s : SimState) : Except SimState SimState :=
  if !s.sceneMounted || !inV then Except.ok s
  else if reduced then Except.ok s
  else activateE renderThrows n cw ch pr s

/-- The physics effect's cleanup (FooterPhysics.tsx lines 188–202), run on
deactivation or unmount for the activation tagged `n`:
`removeEventListener("resize", onResize)`; `Render.stop`; `Runner.stop`;
`World.clear(world, false)` (removes every body, static ones included) and
`Engine.clear`; `render.canvas.remove()`; `render.textures = {}`. -/
def teardown (n : ℕ) (s : SimState) : SimState :=
  { s with resizeListeners := s.resizeListeners.filter (fun m => decide (m ≠ n))
           renderRunning := false
           runnerRunning := false
           world := { bodies := [] }
           canvasAttached := false
           textures := [] }

/-- A world mutation performed by the resize handler. -/
inductive WorldOp where
  | removeBodies (bs : List Body)
  | addBodies (bs : List Body)
deriving DecidableEq, Repr

/-- Apply one world mutation. -/
def applyOp (w : World) : WorldOp → World
  | WorldOp.removeBodies bs => worldRemove w bs
  | WorldOp.addBodies bs => worldAdd w bs

/-- Apply a sequence of world mutations in order, returning the final
world. -/
def applyOps (w : World) (ops : List WorldOp) : World :=
  ops.foldl applyOp w

/-- The world mutations issued by one `onResize` invocation
(FooterPhysics.tsx lines 157–160), in source order: first
`World.remove(engine.current.world, boundaries)` with the old boundary
set, then `World.add(engine.current.world, boundaries)` with the freshly
built set. -/
def onResizeWorldOps (oldBoundaries : List BRect) (cw ch : ℚ) : List WorldOp :=
  [ WorldOp.removeBodies (oldBoundaries.map Body.wall),
    WorldOp.addBodies ((createBoundaries cw ch).map Body.wall) ]

/-- The `onResize` handler (FooterPhysics.tsx lines 144–161) as one atomic
state transition: early return when the host div is gone; otherwise resize
the canvas, reset the pixel ratio, remove the old boundaries and add a
newly built set (the `boundaries` closure variable is reassigned). -/
def onResize (cw ch pr : ℚ) (s : SimState) : SimState :=
  if !s.sceneMounted then s
  else
    { s with canvasW := cw, canvasH := ch, pixelRatio := pr
             world := applyOps s.world (onResizeWorldOps s.boundaries cw ch)
             boundaries := createBoundaries cw ch }

/-- The board-population effect (FooterPhysics.tsx lines 207–251): a no-op
unless the host div exists and is in view; otherwise it builds one board
per entry of `limitedBoardTextures` and, when the list is non-empty, adds
them with a single `World.add`.  Returns the new state, the `boards` list
captured by the effect's cleanup closure, and whether `World.add` was
invoked. -/
def populateEffect (inV : Bool) (cw ch : ℚ) (rnd : ℕ → ℚ) (ts : List String)
    (s : SimState) : SimState × List Board × Bool :=
  if !s.sceneMounted || !inV then (s, [], false)
  else
    let boards := mkBoards cw ch rnd ts
    if 0 < boards.length then
      ({ s with world := worldAdd s.world (boards.map Body.board) }, boards, true)
    else (s, boards, false)

/-- The board-population effect's cleanup (FooterPhysics.tsx lines
248–250): `World.remove(world, boards)` for the captured `boards` list. -/
def populateCleanup (boards : List Board) (s : SimState) : SimState :=
  { s with world := worldRemove s.world (boards.map Body.board) }

/-- The world is idle: neither the render loop nor the stepping loop is
running. -/
def worldIdle (s : SimState) : Bool :=
  !s.renderRunning && !s.runnerRunning

/-- The visibility-gate effect (FooterPhysics.tsx lines 68–84) reduced to
the value of `inView` it produces: `inView` starts as `useState(false)`
(line 40).  When the environment has the `IntersectionObserver` primitive,
the observer callback sets `inView` to the entry's `isIntersecting` flag;
when the primitive is missing, `new IntersectionObserver(...)` throws
inside the effect, no callback ever runs, and the state keeps its previous
value — the effect never sets `inView` at all. -/
def gateEffect (hasObserver isIntersecting : Bool) : Except Unit Bool :=
  if hasObserver then Except.ok isIntersecting
  else Except.error ()

/-- The `inView` value observed after the gate effect ran (or threw). -/
def gateObservedInView (hasObserver isIntersecting inViewBefore : Bool) : Bool :=
  match gateEffect hasObserver isIntersecting with
  | Except.ok b => b
  | Except.error _ => inViewBefore

/-- Initial `useState(false)` value of `inView` (FooterPhysics.tsx line 40). -/
def inViewInitial : Bool := false

/-- Whether an effect invocation ended with an uncaught exception. -/
def exceptRaised {ε α : Type} : Except ε α → Bool
  | Except.error _ => true
  | Except.ok _ => false

/-- The boards the population effect builds for a given device width:
`mkBoards` applied to `limitedBoardTextures` with the mobile flag computed
from the width (FooterPhysics.tsx lines 50, 63–65, 217–240). -/
def boardsForWidth (width cw ch : ℚ) (rnd : ℕ → ℚ) (ts : List String) : List Board :=
  mkBoards cw ch rnd (limitedBoardTextures (isMobileWidth width) ts)

section Theorems

/-- Auxiliary: mapping `Prod.snd` over `enumFrom` recovers the list. -/
theorem enumFrom_map_snd (l : List String) (n : ℕ) :
    (List.enumFrom n l).map Prod.snd = l := by
  induction l generalizing n with
  | nil => rfl
  | cons a l ih => simp [List.enumFrom, ih]

/-- Auxiliary: `mkBoards` creates exactly one board per texture, carrying
the textures in order. -/
theorem mkBoards_textures (cw ch : ℚ) (rnd : ℕ → ℚ) (ts : List String) :
    (mkBoards cw ch rnd ts).map Board.texture = ts := by
  simp only [mkBoards, List.map_map, List.enum]
  have h : (Board.texture ∘ fun p : ℕ × String =>
      mkBoard cw ch (rnd (3 * p.1)) (rnd (3 * p.1 + 1)) (rnd (3 * p.1 + 2)) p.2)
      = Prod.snd := by
    funext p
    rfl
  rw [h, enumFrom_map_snd]

/-- Auxiliary: `mkBoards` preserves length. -/
theorem mkBoards_length (cw ch : ℚ) (rnd : ℕ → ℚ) (ts : List String) :
    (mkBoards cw ch rnd ts).length = ts.length := by
  simp [mkBoards]

/-- C2: `createBoundaries` is a pure function of `(width, height)` (it is a
Lean function) returning exactly four static bodies — top at
`(width/2, −10)` of size `width×20`, left at `(−10, height/2)` of size
`20×height`, bottom at `(width/2, height+10)` of size `width×20`, right at
`(width+10, height/2)` of size `20×height` — and for an 800×600 container
the four boundaries are at `(400,−10)` 800×20, `(−10,300)` 20×600,
`(400,610)` 800×20 and `(810,300)` 20×600. -/
theorem createBoundaries_four_static_walls (width height : ℚ) :
    createBoundaries width height =
      [ { x := width / 2, y := -10, w := width, h := 20, isStatic := true },
        { x := -10, y := height / 2, w := 20, h := height, isStatic := true },
        { x := width / 2, y := height + 10, w := width, h := 20, isStatic := true },
        { x := width + 10, y := height / 2, w := 20, h := height, isStatic := true } ]
    ∧ (createBoundaries width height).length = 4
    ∧ (createBoundaries width height).all (fun r => r.isStatic) = true
    ∧ createBoundaries 800 600 =
      [ { x := 400, y := -10, w := 800, h := 20, isStatic := true },
        { x := -10, y := 300, w := 20, h := 600, isStatic := true },
        { x := 400, y := 610, w := 800, h := 20, isStatic := true },
        { x := 810, y := 300, w := 20, h := 600, isStatic := true } ] := by
  refine ⟨rfl, rfl, rfl, ?_⟩
  norm_num [createBoundaries]

/-- C3: for device widths ≤ 768 (Mobile) the populated board count is
`min 3 (input texture count)` and the boards carry the first three textures
in order; for widths > 768 (Desktop) the count equals the input texture
count, one board per texture in order. -/
theorem board_count_matches_device_class (width cw ch : ℚ) (rnd : ℕ → ℚ)
    (ts : List String) :
    (boardsForWidth width cw ch rnd ts).length =
      (if width ≤ 768 then min 3 ts.length else ts.length)
    ∧ (boardsForWidth width cw ch rnd ts).map Board.texture =
      (if width ≤ 768 then ts.take 3 else ts) := by
  unfold boardsForWidth limitedBoardTextures isMobileWidth
  by_cases h : width ≤ 768
  · simp [h, mkBoards_length, mkBoards_textures, Nat.min_comm]
  · simp [h, mkBoards_length, mkBoards_textures]

/-- C10: with the empty (or omitted, hence defaulted-to-empty) texture
list, the population effect performs no `World.add`, changes nothing, and
its cleanup removes nothing: the world's body set is unchanged. -/
theorem empty_texture_list_population_noop (inV m : Bool) (cw ch : ℚ)
    (rnd : ℕ → ℚ) (s : SimState) :
    limitedBoardTextures m boardTextureURLsDefault = []
    ∧ populateEffect inV cw ch rnd [] s = (s, [], false)
    ∧ populateCleanup [] s = s := by
  refine ⟨by cases m <;> rfl, ?_, ?_⟩
  · unfold populateEffect
    by_cases h : (!s.sceneMounted || !inV) = true
    · simp [h]
    · simp [h, mkBoards]
  · simp [populateCleanup, worldRemove]

/-- C1: teardown of an activation cycle `n` unregisters that cycle's
resize listener, stops the render loop and the stepping loop, clears all
bodies from the world, removes the canvas and releases the cached
textures; running it twice in succession yields the very same end state as
running it once; after teardown no loop tick occurs (a tick is the
identity) before the next activation; and a full activate-then-teardown
cycle restores the resize-listener set (the cycle's listener is gone). -/
theorem teardown_idempotent_no_residual (s : SimState) (n : ℕ) (cw ch pr : ℚ) :
    teardown n (teardown n s) = teardown n s
    ∧ n ∉ (teardown n s).resizeListeners
    ∧ (teardown n s).renderRunning = false
    ∧ (teardown n s).runnerRunning = false
    ∧ (teardown n s).world.bodies = []
    ∧ (teardown n s).canvasAttached = false
    ∧ (teardown n s).textures = []
    ∧ tick (teardown n s) = teardown n s
    ∧ (teardown n (activate n cw ch pr s)).resizeListeners
        = s.resizeListeners.filter (fun m => decide (m ≠ n)) := by
  refine ⟨?_, ?_, rfl, rfl, rfl, rfl, rfl, ?_, ?_⟩
  · simp [teardown, List.filter_filter]
  · simp [teardown]
  · simp [tick, teardown]
  · simp [teardown, activate, activateE, startLoops, addResizeListener,
      addMouseStep, addBoundariesStep, renderCreate, setGravity]

/-- Auxiliary: removing the complete wall set from a world leaves no
walls. -/
theorem walls_worldRemove_all (w : World) (old : List Body)
    (hw : w.walls = old) :
    (worldRemove w old).walls = [] := by
  unfold worldRemove World.walls
  rw [List.filter_filter, List.filter_eq_nil_iff]
  intro b hbmem
  simp only [Bool.and_eq_true, decide_eq_true_eq, not_and]
  intro hwall hnot
  exact hnot (hw ▸ List.mem_filter.mpr ⟨hbmem, hwall⟩)

/-- Auxiliary: walls of a world after adding a list of wall bodies. -/
theorem walls_worldAdd_walls (w : World) (rs : List BRect) :
    (worldAdd w (rs.map Body.wall)).walls = w.walls ++ rs.map Body.wall := by
  unfold worldAdd World.walls
  rw [List.filter_append, List.filter_map]
  have h : (Body.isWall ∘ Body.wall) = fun _ => true := by
    funext r
    rfl
  rw [h, List.filter_true]

/-- C4: a resize handled while Running replaces the boundary set
atomically and in order.  Under the invariant that the world's wall set is
exactly the tracked old boundary list (built by `createBoundaries` for the
previous dimensions), the handler issues the `World.remove` of the old
four walls strictly before the `World.add` of the four new walls, within
the same invocation; it is a single run-to-completion event handler, i.e.
one atomic transition of the embedding, so the wall set observable before
it has exactly the old 4 walls and the wall set observable after it is
exactly the new 4 — never 0 and never 8. -/
theorem resize_replaces_boundaries_atomically (s : SimState) (w0 h0 cw ch pr : ℚ)
    (hscene : s.sceneMounted = true)
    (hb : s.boundaries = createBoundaries w0 h0)
    (hw : s.world.walls = s.boundaries.map Body.wall) :
    s.world.walls.length = 4
    ∧ onResizeWorldOps s.boundaries cw ch =
        [ WorldOp.removeBodies (s.boundaries.map Body.wall),
          WorldOp.addBodies ((createBoundaries cw ch).map Body.wall) ]
    ∧ (onResize cw ch pr s).world =
        worldAdd (worldRemove s.world (s.boundaries.map Body.wall))
          ((createBoundaries cw ch).map Body.wall)
    ∧ (onResize cw ch pr s).world.walls = (createBoundaries cw ch).map Body.wall
    ∧ (onResize cw ch pr s).world.walls.length = 4 := by
  have hlen : s.world.walls.length = 4 := by
    rw [hw, hb]
    rfl
  have heq : (onResize cw ch pr s).world =
      worldAdd (worldRemove s.world (s.boundaries.map Body.wall))
        ((createBoundaries cw ch).map Body.wall) := by
    simp [onResize, hscene, applyOps, onResizeWorldOps, applyOp]
  have hwalls : (onResize cw ch pr s).world.walls =
      (createBoundaries cw ch).map Body.wall := by
    rw [heq, walls_worldAdd_walls, walls_worldRemove_all s.world _ hw]
    rfl
  refine ⟨hlen, rfl, heq, hwalls, ?_⟩
  rw [hwalls]
  rfl

/-- Witness for C4: a Running state built by activating at 800×600 and
resizing to 1000×400 — exactly 4 walls before, exactly the new 4 after. -/
theorem resize_replaces_boundaries_atomically_witness :
    (activate 0 800 600 1 mountState).world.walls.length = 4
    ∧ (onResize 1000 400 1 (activate 0 800 600 1 mountState)).world.walls
        = (createBoundaries 1000 400).map Body.wall
    ∧ (onResize 1000 400 1 (activate 0 800 600 1 mountState)).world.walls.length = 4 := by
  have h := resize_replaces_boundaries_atomically (activate 0 800 600 1 mountState)
    800 600 1000 400 1 rfl rfl rfl
  exact ⟨h.1, h.2.2.2.1, h.2.2.2.2⟩

/-- C5, counterexample: the component has no try/catch, so when
`Render.create` throws during an activation attempt the exception is NOT
caught locally — it escapes both the activation path and the whole physics
effect, contradicting the claim that no crash propagates to the caller. -/
theorem construction_failure_not_caught_cx :
    exceptRaised (activateE true 0 800 600 1 mountState) = true
    ∧ exceptRaised (physicsEffect true false true 0 800 600 1 mountState) = true := by
  exact ⟨rfl, rfl⟩

/-- C5, amended: if `Render.create` throws during an activation attempt
from Idle, the exception propagates to the caller, but the state at the
throw point has no partially-constructed machinery: no render loop, no
stepping loop, no resize listener added, and the world untouched — only
the gravity assignment (which precedes `Render.create`) has happened. -/
theorem construction_failure_no_partial_state (s : SimState) (n : ℕ)
    (cw ch pr : ℚ) (hr : s.renderRunning = false) (hq : s.runnerRunning = false) :
    activateE true n cw ch pr s = Except.error (setGravity s)
    ∧ (setGravity s).renderRunning = false
    ∧ (setGravity s).runnerRunning = false
    ∧ (setGravity s).resizeListeners = s.resizeListeners
    ∧ (setGravity s).world = s.world
    ∧ (setGravity s).canvasAttached = s.canvasAttached := by
  exact ⟨rfl, hr, hq, rfl, rfl, rfl⟩

/-- Witness for the amended C5 at the freshly mounted Idle state. -/
theorem construction_failure_no_partial_state_witness :
    mountState.renderRunning = false ∧ mountState.runnerRunning = false
    ∧ activateE true 0 800 600 1 mountState = Except.error (setGravity mountState) := by
  exact ⟨rfl, rfl, (construction_failure_no_partial_state mountState 0 800 600 1 rfl rfl).1⟩

/-- C6, counterexample: the engine (and hence its world aggregate) is
created exactly once, in the `useRef(Engine.create())` initializer; an
Active→Inactive→Active cycle carries the very same world identity into the
next Active lifetime, contradicting the claim that the World is destroyed
and replaced on every Inactive→Active transition. -/
theorem world_not_replaced_cx :
    (activate 1 800 600 1 (teardown 0 (activate 0 800 600 1 mountState))).worldId
      = (activate 0 800 600 1 mountState).worldId
    ∧ (activate 1 800 600 1 (teardown 0 (activate 0 800 600 1 mountState))).worldId
      = mountState.worldId := by
  exact ⟨rfl, rfl⟩

/-- C6, amended: the World instance is created once per component mount
and reused across activations; teardown clears it in place, so although
the object identity is carried over, re-activation starts from a clean
Idle state — empty body set, no loops, no canvas, no cached textures. -/
theorem world_reused_cleared_in_place (s : SimState) (n n2 : ℕ)
    (cw ch pr cw2 ch2 pr2 : ℚ) :
    (activate n2 cw2 ch2 pr2 (teardown n (activate n cw ch pr s))).worldId = s.worldId
    ∧ (teardown n (activate n cw ch pr s)).world.bodies = []
    ∧ worldIdle (teardown n (activate n cw ch pr s)) = true
    ∧ (teardown n (activate n cw ch pr s)).canvasAttached = false
    ∧ (teardown n (activate n cw ch pr s)).textures = [] := by
  refine ⟨?_, rfl, rfl, rfl, rfl⟩
  simp [activate, activateE, teardown, startLoops, addResizeListener,
    addMouseStep, addBoundariesStep, renderCreate, setGravity]

/-- C8, counterexample: with the reduced-motion preference set, the
Active signal leaves the world Idle (the physics effect returns without
starting anything), yet the board-population effect — which checks only
the host div and `inView`, not the reduced-motion preference or the loops
— still invokes `World.add` and adds a board to the Idle world,
contradicting the claim that no Board is ever created while the World is
Idle. -/
theorem boards_added_while_idle_cx :
    physicsEffect true true false 0 800 600 1 mountState = Except.ok mountState
    ∧ worldIdle mountState = true
    ∧ worldIdle (populateEffect true 800 600 (fun _ => 0)
        (limitedBoardTextures false ["t"]) mountState).1 = true
    ∧ (populateEffect true 800 600 (fun _ => 0)
        (limitedBoardTextures false ["t"]) mountState).1.world.bodies.length = 1
    ∧ (populateEffect true 800 600 (fun _ => 0)
        (limitedBoardTextures false ["t"]) mountState).2.2 = true := by
  exact ⟨rfl, rfl, rfl, rfl, rfl⟩

/-- C8, amended: board population is gated only on the host div being
mounted and in view, not on the World being Running: when not in view it
is a no-op ((state, no boards, no `World.add`)), and when in view it
appends one board per capped texture to the world regardless of whether
any loop is running — leaving the loop flags unchanged. -/
theorem population_gated_by_visibility (s : SimState) (cw ch : ℚ)
    (rnd : ℕ → ℚ) (ts : List String) :
    populateEffect false cw ch rnd ts s = (s, [], false)
    ∧ (s.sceneMounted = true →
        (populateEffect true cw ch rnd ts s).1.world.bodies
          = s.world.bodies ++ (mkBoards cw ch rnd ts).map Body.board
        ∧ (populateEffect true cw ch rnd ts s).1.renderRunning = s.renderRunning
        ∧ (populateEffect true cw ch rnd ts s).1.runnerRunning = s.runnerRunning) := by
  constructor
  · simp [populateEffect]
  · intro h
    by_cases hb : 0 < (mkBoards cw ch rnd ts).length
    · simp [populateEffect, h, hb, worldAdd]
    · have hnil : mkBoards cw ch rnd ts = [] := by
        rw [← List.length_eq_zero]
        omega
      simp [populateEffect, h, hnil]

/-- Witness for the amended C8 at the mounted state with one texture. -/
theorem population_gated_by_visibility_witness :
    populateEffect false 800 600 (fun _ => 0) ["t"] mountState = (mountState, [], false)
    ∧ (populateEffect true 800 600 (fun _ => 0) ["t"] mountState).1.world.bodies
        = mountState.world.bodies
            ++ (mkBoards 800 600 (fun _ => 0) ["t"]).map Body.board := by
  have h := population_gated_by_visibility mountState 800 600 (fun _ => 0) ["t"]
  exact ⟨h.1, (h.2 rfl).1⟩

/-- C9, counterexample: when the environment lacks the
`IntersectionObserver` primitive, its construction throws inside the gate
effect, no callback ever runs, and `inView` keeps its initial `false`
value; the physics effect then never activates.  The gate fails CLOSED,
contradicting the claim that it fails open (treating the surface as always
active). -/
theorem gate_missing_primitive_cx :
    gateEffect false true = Except.error ()
    ∧ exceptRaised (gateEffect false true) = true
    ∧ gateObservedInView false true inViewInitial = false
    ∧ physicsEffect (gateObservedInView false true inViewInitial)
        false false 0 800 600 1 mountState = Except.ok mountState := by
  exact ⟨rfl, rfl, rfl, rfl⟩

/-- C9, amended: without the intersection-observation primitive the gate
fails closed — whatever the actual intersection status, the observed
`inView` stays at its initial `false`, and the physics effect is a no-op,
so the simulation never activates. -/
theorem gate_fails_closed (isIntersecting reduced renderThrows : Bool)
    (n : ℕ) (cw ch pr : ℚ) (s : SimState) :
    gateObservedInView false isIntersecting inViewInitial = false
    ∧ physicsEffect (gateObservedInView false isIntersecting inViewInitial)
        reduced renderThrows n cw ch pr s = Except.ok s := by
  refine ⟨rfl, ?_⟩
  simp [physicsEffect, gateObservedInView, gateEffect, inViewInitial]

/-- C7, counterexample: for a 90-unit-tall container, the population
formula `y = ry·(ch/2 − 100) + 50` with the legitimate random sample
`ry = 0` places the board at `y = 50`, below the top half of the container
(the top half ends at `90/2 = 45`), contradicting the claim that the
initial position is always within the upper half of the container. -/
theorem board_outside_top_half_cx :
    mkBoards 800 90 (fun _ => 0) ["t"] = [mkBoard 800 90 0 0 0 "t"]
    ∧ (mkBoard 800 90 0 0 0 "t").y = 50
    ∧ ¬ ((mkBoard 800 90 0 0 0 "t").y < 90 / 2)
    ∧ ((0:ℚ) ≤ 0 ∧ (0:ℚ) < 1) := by
  refine ⟨rfl, ?_, ?_, by norm_num⟩
  · norm_num [mkBoard]
  · norm_num [mkBoard]

/-- C7, amended: every board is a dynamic (non-static) rounded rectangle
of 80×285 units with corner radius 40, restitution 0.8, friction 0.005 and
its texture reference; its rotation is `rr·100 − 50` degrees, i.e. within
[−50°, 50°); its x position `rx·cw` lies in [0, cw); and its y position is
`ry·(ch/2 − 100) + 50`, which lies within the top half [0, ch/2) of the
container whenever the container is at least 200 units tall (for shorter
containers it can fall outside the top half). -/
theorem board_attributes (cw ch rx ry rr : ℚ) (t : String)
    (hrx0 : 0 ≤ rx) (hrx1 : rx < 1) (hry0 : 0 ≤ ry) (hry1 : ry < 1)
    (hrr0 : 0 ≤ rr) (hrr1 : rr < 1) (hcw : 0 < cw) (hch : 200 ≤ ch) :
    (mkBoard cw ch rx ry rr t).isStatic = false
    ∧ (mkBoard cw ch rx ry rr t).w = 80
    ∧ (mkBoard cw ch rx ry rr t).h = 285
    ∧ (mkBoard cw ch rx ry rr t).chamferRadius = 40
    ∧ (mkBoard cw ch rx ry rr t).restitution = 8 / 10
    ∧ (mkBoard cw ch rx ry rr t).friction = 5 / 1000
    ∧ (mkBoard cw ch rx ry rr t).texture = t
    ∧ (mkBoard cw ch rx ry rr t).angleDeg = rr * 100 - 50
    ∧ -50 ≤ (mkBoard cw ch rx ry rr t).angleDeg
    ∧ (mkBoard cw ch rx ry rr t).angleDeg < 50
    ∧ (mkBoard cw ch rx ry rr t).x = rx * cw
    ∧ 0 ≤ (mkBoard cw ch rx ry rr t).x
    ∧ (mkBoard cw ch rx ry rr t).x < cw
    ∧ (mkBoard cw ch rx ry rr t).y = ry * (ch / 2 - 100) + 50
    ∧ 0 ≤ (mkBoard cw ch rx ry rr t).y
    ∧ (mkBoard cw ch rx ry rr t).y < ch / 2 := by
  have hfac : (0:ℚ) ≤ ch / 2 - 100 := by linarith
  have hymul : ry * (ch / 2 - 100) ≤ ch / 2 - 100 :=
    mul_le_of_le_one_left hfac hry1.le
  have hymul0 : (0:ℚ) ≤ ry * (ch / 2 - 100) := mul_nonneg hry0 hfac
  refine ⟨rfl, rfl, rfl, rfl, rfl, rfl, rfl, rfl, ?_, ?_, rfl, ?_, ?_, rfl, ?_, ?_⟩
  · show -50 ≤ rr * 100 - 50
    nlinarith
  · show rr * 100 - 50 < 50
    nlinarith
  · exact mul_nonneg hrx0 hcw.le
  · show rx * cw < cw
    nlinarith
  · show (0:ℚ) ≤ ry * (ch / 2 - 100) + 50
    linarith
  · show ry * (ch / 2 - 100) + 50 < ch / 2
    linarith

/-- Witness for the amended C7: an 800×600 container with all three
random samples at 1/2. -/
theorem board_attributes_witness :
    ((0:ℚ) ≤ 1/2 ∧ (1/2:ℚ) < 1 ∧ (0:ℚ) < 800 ∧ (200:ℚ) ≤ 600)
    ∧ (mkBoard 800 600 (1/2) (1/2) (1/2) "t").isStatic = false
    ∧ 0 ≤ (mkBoard 800 600 (1/2) (1/2) (1/2) "t").y
    ∧ (mkBoard 800 600 (1/2) (1/2) (1/2) "t").y < 600 / 2 := by
  have h := board_attributes 800 600 (1/2) (1/2) (1/2) "t"
    (by norm_num) (by norm_num) (by norm_num) (by norm_num)
    (by norm_num) (by norm_num) (by norm_num) (by norm_num)
  exact ⟨⟨by norm_num, by norm_num, by norm_num, by norm_num⟩,
    h.1, h.2.2.2.2.2.2.2.2.2.2.2.2.2.2.1, h.2.2.2.2.2.2.2.2.2.2.2.2.2.2.2⟩

end Theorems

end FooterPhysics
